import Mathlib

/-!
Shallow embedding of the reading-progress core of the discord-book-bot
repository (src/database.py and src/main.py), together with theorems
settling the specification claims about it.

Modelling conventions:
* SQLite rows become Lean structures; tables become lists of rows.
* `NULL`-able columns are `Option` fields; SQL `COALESCE` is the
  `coalesce` function below.
* Timestamps are abstract `Nat` ticks; every operation that calls
  `utc_now_iso()` takes the current tick as an explicit `now` argument.
* Python `raise ValueError(...)` becomes `Except.error` with an error
  kind matching the specification's error taxonomy; a raise aborts the
  operation before any write, so an error result carries no new state.
* Python floats in the percent derivation are modelled by exact
  rationals, and Python `round` by round-half-to-even (`pyRound`).
-/

namespace BookBot

/-- SQL COALESCE on two nullable values: the first non-null one. -/
def coalesce {α : Type} : Option α → Option α → Option α
  | some a, _ => some a
  | none, b => b

/-- Python truthiness of an optional string: `None` and `""` are falsy. -/
def truthyStr : Option String → Bool
  | none => false
  | some s => s ≠ ""

/-- Drop leading and trailing whitespace from a character list. -/
def stripChars (l : List Char) : List Char :=
  ((l.dropWhile Char.isWhitespace).reverse.dropWhile Char.isWhitespace).reverse

/-- Python `str.strip()`. -/
def pyStrip (s : String) : String := ⟨stripChars s.data⟩

/-- Python `str.lower()` (ASCII case folding suffices for this model). -/
def strLower (s : String) : String := ⟨s.data.map Char.toLower⟩

/-- Python `str.strip().lower()`, used to normalise status tokens. -/
def pyStripLower (s : String) : String := strLower (pyStrip s)

/-- Python `str.isdigit()`: non-empty and all digits. -/
def isDigits (s : String) : Bool := (!s.data.isEmpty) && s.data.all Char.isDigit

/-- Python `int(...)` on a string of digits. -/
def strToNat (s : String) : Nat :=
  s.data.foldl (fun acc c => acc * 10 + (c.toNat - 48)) 0

/-- Does `needle` occur at the start of `hay`? -/
def charsBeginWith : List Char → List Char → Bool
  | [], _ => true
  | _ :: _, [] => false
  | a :: as, b :: bs => a == b && charsBeginWith as bs

/-- Does `needle` occur anywhere in `hay`? (Python `needle in hay`.) -/
def charsContain (needle : List Char) : List Char → Bool
  | [] => needle.isEmpty
  | b :: bs => charsBeginWith needle (b :: bs) || charsContain needle bs

/-- Python substring test `needle in hay` on strings. -/
def strContainsSub (needle hay : String) : Bool := charsContain needle.data hay.data

/-- Python `round` on a rational: round half to even (banker's rounding). -/
def pyRound (q : ℚ) : ℤ :=
  let n : ℤ := ⌊q⌋
  let r : ℚ := q - (n : ℚ)
  if r < 1/2 then n
  else if 1/2 < r then n + 1
  else if n % 2 = 0 then n else n + 1

/-- Error kinds of the store layer, following the spec's taxonomy for the
`ValueError`s raised in src/database.py. -/
inductive DBError where
  | invalidStatus
  | unknownUser
  | notLinked
  | invalidInput
deriving Repr, DecidableEq

/-- Row of the `users` table. -/
structure UserRow where
  id : Nat
  discord_user_id : String
  display_name : Option String
  goodreads_url : Option String
  created_at : Nat
deriving Repr, DecidableEq

/-- Row of the `books` table. -/
structure BookRow where
  id : Nat
  google_volume_id : Option String
  title : String
  author : Option String
  isbn13 : Option String
  published_year : Option Int
  created_at : Nat
deriving Repr, DecidableEq

/-- Row of the `user_books` table (the user-book link). -/
structure UserBookRow where
  user_id : Nat
  book_id : Nat
  status : String
  progress_pct : Int
  current_page : Option Int
  total_pages : Option Int
  started_at : Option Nat
  finished_at : Option Nat
  last_milestone : Int
  created_at : Nat
  updated_at : Nat
deriving Repr, DecidableEq

/-- The whole store: three tables plus the AUTOINCREMENT counters. -/
structure DB where
  users : List UserRow
  books : List BookRow
  user_books : List UserBookRow
  next_user_id : Nat
  next_book_id : Nat
deriving Repr, DecidableEq

def emptyDB : DB := ⟨[], [], [], 1, 1⟩

/-- Mirror of `ALLOWED_STATUSES` from src/database.py. -/
def ALLOWED_STATUSES : List String := ["plan_to_read", "reading", "finished", "dnf", "paused"]

/-- Mirror of `MILESTONES` from src/database.py. -/
def MILESTONES : List Int := [25, 50, 75, 100]

/-- Models `get_user`: first row of `users` with the given discord id. -/
def get_user (db : DB) (uid : String) : Option UserRow :=
  db.users.find? (fun u => u.discord_user_id == uid)

/-- Models `upsert_user`: INSERT OR ON CONFLICT update the display name with
`COALESCE(excluded.display_name, users.display_name)`; returns the new DB
and the row id. -/
def upsert_user (db : DB) (uid : String) (display_name : Option String) (now : Nat) :
    DB × Nat :=
  match get_user db uid with
  | some u =>
    ({ db with users := db.users.map (fun x =>
        if x.discord_user_id == uid then
          { x with display_name := coalesce display_name x.display_name }
        else x) }, u.id)
  | none =>
    ({ db with
        users := db.users ++ [⟨db.next_user_id, uid, display_name, none, now⟩],
        next_user_id := db.next_user_id + 1 }, db.next_user_id)

/-- Models `add_or_get_book`: dedupe by google volume id, then isbn13, then
case-insensitive (title, author); else insert. -/
def add_or_get_book (db : DB) (title : String) (author : Option String)
    (google_volume_id isbn13 : Option String) (published_year : Option Int)
    (now : Nat) : DB × Nat :=
  match (if truthyStr google_volume_id then
          db.books.find? (fun b => b.google_volume_id == google_volume_id)
        else none) with
  | some b => (db, b.id)
  | none =>
    match (if truthyStr isbn13 then
            db.books.find? (fun b => b.isbn13 == isbn13)
          else none) with
    | some b => (db, b.id)
    | none =>
      match db.books.find? (fun b =>
          strLower b.title == strLower (pyStrip title) &&
          strLower (b.author.getD "") == strLower (pyStrip (author.getD ""))) with
      | some b => (db, b.id)
      | none =>
        ({ db with
            books := db.books ++
              [⟨db.next_book_id, google_volume_id, pyStrip title,
                (match author with
                 | some a => if a == "" then none else some (pyStrip a)
                 | none => none), isbn13, published_year, now⟩],
            next_book_id := db.next_book_id + 1 }, db.next_book_id)

/-- Joined row shape returned by `list_user_books` / `get_user_book_link`. -/
structure LinkView where
  book_id : Nat
  status : String
  progress_pct : Int
  current_page : Option Int
  total_pages : Option Int
  started_at : Option Nat
  finished_at : Option Nat
  last_milestone : Int
  updated_at : Nat
  title : String
  author : Option String
  published_year : Option Int
deriving Repr, DecidableEq

/-- JOIN of a `user_books` row with its `books` row. -/
def joinBook (db : DB) (r : UserBookRow) : Option LinkView :=
  (db.books.find? (fun b => b.id == r.book_id)).map (fun b =>
    { book_id := r.book_id, status := r.status, progress_pct := r.progress_pct,
      current_page := r.current_page, total_pages := r.total_pages,
      started_at := r.started_at, finished_at := r.finished_at,
      last_milestone := r.last_milestone, updated_at := r.updated_at,
      title := b.title, author := b.author, published_year := b.published_year })

/-- Insert into a list kept in descending `updated_at` order. -/
def insertByUpdated (r : LinkView) : List LinkView → List LinkView
  | [] => [r]
  | x :: xs => if x.updated_at < r.updated_at then r :: x :: xs else x :: insertByUpdated r xs

/-- ORDER BY updated_at DESC. -/
def sortByUpdatedDesc : List LinkView → List LinkView
  | [] => []
  | x :: xs => insertByUpdated x (sortByUpdatedDesc xs)

/-- The `WHERE user_id=? AND book_id=?` predicate shared by the link
SELECT and UPDATE statements. -/
def linkKey (uid_num bid : Nat) (r : UserBookRow) : Bool :=
  r.user_id == uid_num && r.book_id == bid

/-- SET clause of the in-place UPDATE in `add_book_to_user`. -/
def relinkRow (st : String) (pct : Int) (cp tp : Option Int) (sa fa : Option Nat)
    (now : Nat) (r : UserBookRow) : UserBookRow :=
  { r with status := st, progress_pct := pct,
           current_page := coalesce cp r.current_page,
           total_pages := coalesce tp r.total_pages,
           started_at := coalesce sa r.started_at,
           finished_at := coalesce fa r.finished_at,
           updated_at := now }

/-- SET clause of the UPDATE in `update_user_book_progress`. -/
def progressRow (pct2 cp tp : Option Int) (now : Nat) (r : UserBookRow) : UserBookRow :=
  { r with progress_pct := pct2.getD r.progress_pct,
           current_page := coalesce cp r.current_page,
           total_pages := coalesce tp r.total_pages,
           updated_at := now }

/-- SET clause of the UPDATE in `update_user_book_status`. -/
def statusRow (st : String) (sa fa : Option Nat) (now : Nat) (r : UserBookRow) : UserBookRow :=
  { r with status := st,
           started_at := coalesce sa r.started_at,
           finished_at := coalesce fa r.finished_at,
           updated_at := now }

/-- SET clause of the UPDATE in `set_last_milestone`. -/
def milestoneRow (m : Int) (now : Nat) (r : UserBookRow) : UserBookRow :=
  { r with last_milestone := m, updated_at := now }

/-- Apply an `UPDATE ... WHERE` to every matching row of a table. -/
def updateWhere (p : UserBookRow → Bool) (f : UserBookRow → UserBookRow)
    (l : List UserBookRow) : List UserBookRow :=
  l.map (fun r => if p r then f r else r)

/-- Models `list_user_books`: empty list for an unknown user; InvalidStatus for a
truthy status filter outside the enum; else the user's joined link rows,
optionally filtered, newest-updated first, limited. -/
def list_user_books (db : DB) (uid : String) (status : Option String) (limit : Nat) :
    Except DBError (List LinkView) :=
  match get_user db uid with
  | none => .ok []
  | some u =>
    let base := db.user_books.filter (fun r => r.user_id == u.id)
    if truthyStr status then
      let st := pyStripLower (status.getD "")
      if ALLOWED_STATUSES.contains st then
        .ok ((sortByUpdatedDesc ((base.filter (fun r => r.status == st)).filterMap
              (joinBook db))).take limit)
      else .error .invalidStatus
    else
      .ok ((sortByUpdatedDesc (base.filterMap (joinBook db))).take limit)

/-- Models `get_user_book_link`: the joined row for one (user, book) pair. -/
def get_user_book_link (db : DB) (uid : String) (bid : Nat) : Option LinkView :=
  match get_user db uid with
  | none => none
  | some u =>
    match db.user_books.find? (linkKey u.id bid) with
    | none => none
    | some r => joinBook db r

/-- Models `add_book_to_user`: validates the status, clamps the supplied percent,
upserts the user and resolves the book, then updates the existing link in
place (status/progress always, pages and timestamps by COALESCE with the
new value first) or inserts a fresh link with `last_milestone = 0`. -/
def add_book_to_user (db : DB) (uid : String) (title : String) (author : Option String)
    (status : String) (progress_pct : Int) (current_page total_pages : Option Int)
    (google_volume_id isbn13 : Option String) (published_year : Option Int)
    (now : Nat) : Except DBError (DB × Nat × Nat × Bool) :=
  let st := pyStripLower status
  if ALLOWED_STATUSES.contains st then
    let pct := max 0 (min 100 progress_pct)
    let p1 := upsert_user db uid none now
    let p2 := add_or_get_book p1.1 title author google_volume_id isbn13 published_year now
    let db2 := p2.1
    let user_id := p1.2
    let book_id := p2.2
    let started_at : Option Nat := if st == "reading" then some now else none
    let finished_at : Option Nat := if st == "finished" then some now else none
    match db2.user_books.find? (linkKey user_id book_id) with
    | some _ =>
      .ok ({ db2 with user_books := (updateWhere (linkKey user_id book_id)
          (relinkRow st pct current_page total_pages started_at finished_at now)
          db2.user_books) }, user_id, book_id, false)
    | none =>
      .ok ({ db2 with user_books := db2.user_books ++
          [⟨user_id, book_id, st, pct, current_page, total_pages,
            started_at, finished_at, 0, now, now⟩] }, user_id, book_id, true)
  else .error .invalidStatus

/-- Models `update_user_book_progress`: unknown user fails first; then the percent
is derived from pages when percent is absent, a current page is supplied
and `total_pages` is truthy (raising InvalidInput for a negative total);
any percent is clamped; a missing link fails with NotLinked; supplied
fields overwrite via COALESCE with the new value first. -/
def update_user_book_progress (db : DB) (uid : String) (bid : Nat)
    (progress_pct current_page total_pages : Option Int) (now : Nat) :
    Except DBError DB :=
  match get_user db uid with
  | none => .error .unknownUser
  | some u =>
    let step : Except DBError (Option Int) :=
      match progress_pct, current_page, total_pages with
      | none, some c, some t =>
        if t == 0 then .ok none
        else if t ≤ 0 then .error .invalidInput
        else .ok (some (pyRound ((c : ℚ) / (t : ℚ) * 100)))
      | p, _, _ => .ok p
    match step with
    | .error e => .error e
    | .ok pct1 =>
      let pct2 := pct1.map (fun p => max 0 (min 100 p))
      match db.user_books.find? (linkKey u.id bid) with
      | none => .error .notLinked
      | some _ =>
        .ok { db with user_books := (updateWhere (linkKey u.id bid)
            (progressRow pct2 current_page total_pages now) db.user_books) }

/-- Models `update_user_book_status`: validates the status, fails for an unknown
user or a missing link, preserves an already-set started/finished
timestamp, and otherwise stamps `now` when entering reading/finished. -/
def update_user_book_status (db : DB) (uid : String) (bid : Nat) (status : String)
    (now : Nat) : Except DBError DB :=
  let st := pyStripLower status
  if ALLOWED_STATUSES.contains st then
    match get_user db uid with
    | none => .error .unknownUser
    | some u =>
      match db.user_books.find? (linkKey u.id bid) with
      | none => .error .notLinked
      | some row =>
        let started_at0 : Option Nat := if st == "reading" then some now else none
        let finished_at0 : Option Nat := if st == "finished" then some now else none
        let started_at :=
          if row.started_at.isSome && started_at0.isSome then row.started_at else started_at0
        let finished_at :=
          if row.finished_at.isSome && finished_at0.isSome then row.finished_at else finished_at0
        .ok { db with user_books := (updateWhere (linkKey u.id bid)
            (statusRow st started_at finished_at now) db.user_books) }
  else .error .invalidStatus

/-- Models `set_last_milestone`: silently returns for an unknown user (the Python
function has no raise on that path), else unconditionally overwrites. -/
def set_last_milestone (db : DB) (uid : String) (bid : Nat) (milestone : Int)
    (now : Nat) : DB :=
  match get_user db uid with
  | none => db
  | some u =>
    { db with user_books := (updateWhere (linkKey u.id bid)
        (milestoneRow milestone now) db.user_books) }

/-- Result shape of `get_user_profile_summary`. -/
structure ProfileSummary where
  user_exists : Bool
  goodreads_url : Option String
  display_name : Option String
  counts : List (String × Nat)
deriving Repr, DecidableEq

/-- Models `get_user_profile_summary`: gives the `exists = false` shape for an unknown user;
else the per-status counts, zero-filled over the whole enum. -/
def get_user_profile_summary (db : DB) (uid : String) : ProfileSummary :=
  match get_user db uid with
  | none => { user_exists := false, goodreads_url := none, display_name := none, counts := [] }
  | some u =>
    { user_exists := true, goodreads_url := u.goodreads_url, display_name := u.display_name,
      counts := ALLOWED_STATUSES.map (fun s =>
        (s, (db.user_books.filter (fun r => r.user_id == u.id && r.status == s)).length)) }

/-- The crossed-thresholds list of `announce_milestone_if_crossed`
(src/main.py): `[m for m in MILESTONES if last < m <= pct]`. -/
def crossed_milestones (last pct : Int) : List Int :=
  MILESTONES.filter (fun m => decide (last < m ∧ m ≤ pct))

/-- Models `announce_milestone_if_crossed` (src/main.py): load the link; if no
threshold in `MILESTONES` satisfies `last < m <= pct` do nothing; else
store the maximum crossed threshold and announce it. The Discord channel
send is external I/O; the announced value is returned as the second
component (`none` = no announcement). -/
def announce_milestone_if_crossed (db : DB) (uid : String) (bid : Nat) (now : Nat) :
    DB × Option Int :=
  match get_user_book_link db uid bid with
  | none => (db, none)
  | some link =>
    match crossed_milestones link.last_milestone link.progress_pct with
    | [] => (db, none)
    | c :: cs =>
      let new_last := cs.foldl max c
      (set_last_milestone db uid bid new_last now, some new_last)

/-- Payload produced by `parse_progress_value` (src/main.py). -/
structure ProgressPayload where
  progress_pct : Option Int
  current_page : Option Int
  total_pages : Option Int
deriving Repr, DecidableEq

/-- The `"current/total"` branch of `parse_progress_value` (src/main.py),
after the two integer tokens have been parsed: a non-positive total raises,
else the percent is `round(current/total*100)` clamped to [0, 100]. -/
def parse_progress_fraction (current_page total_pages : Int) :
    Except DBError ProgressPayload :=
  if total_pages ≤ 0 then .error .invalidInput
  else
    let pct := pyRound ((current_page : ℚ) / (total_pages : ℚ) * 100)
    .ok { progress_pct := some (max 0 (min 100 pct)),
          current_page := some current_page,
          total_pages := some total_pages }

/-- Models `resolve_reading_book_id` (src/main.py): over the user's reading scope,
newest first. One book wins outright; an absent token with several books is
ambiguous (`none`); a digit token is a 1-based index; otherwise exact then
substring case-insensitive title match within the scope, else `none`. -/
def resolve_reading_book_id (db : DB) (uid : String) (which : Option String) :
    Option Nat :=
  match list_user_books db uid (some "reading") 200 with
  | .error _ => none
  | .ok reading =>
    match reading with
    | [] => none
    | [b] => some b.book_id
    | _ =>
      if truthyStr which then
        let w := pyStrip (which.getD "")
        if isDigits w then
          let idx := strToNat w
          if 1 ≤ idx ∧ idx ≤ reading.length then
            (reading.get? (idx - 1)).map (fun b => b.book_id)
          else none
        else
          let q := strLower w
          match reading.find? (fun b => strLower (pyStrip b.title) == q) with
          | some b => some b.book_id
          | none =>
            match reading.find? (fun b => strContainsSub q (strLower b.title)) with
            | some b => some b.book_id
            | none => none
      else none

/-- Book Resolution as the specification words it (claim side, for
comparison with `resolve_reading_book_id`): identical until the in-scope
substring match fails, at which point the search is broadened to the
user's full book list across all statuses using substring match. -/
def resolve_reading_book_id_specside (db : DB) (uid : String) (which : Option String) :
    Option Nat :=
  match list_user_books db uid (some "reading") 200 with
  | .error _ => none
  | .ok reading =>
    match reading with
    | [] => none
    | [b] => some b.book_id
    | _ =>
      if truthyStr which then
        let w := pyStrip (which.getD "")
        if isDigits w then
          let idx := strToNat w
          if 1 ≤ idx ∧ idx ≤ reading.length then
            (reading.get? (idx - 1)).map (fun b => b.book_id)
          else none
        else
          let q := strLower w
          match reading.find? (fun b => strLower (pyStrip b.title) == q) with
          | some b => some b.book_id
          | none =>
            match reading.find? (fun b => strContainsSub q (strLower b.title)) with
            | some b => some b.book_id
            | none =>
              match list_user_books db uid none 200 with
              | .error _ => none
              | .ok allLinks =>
                (allLinks.find? (fun b => strContainsSub q (strLower b.title))).map
                  (fun b => b.book_id)
      else none

/-! ## Concrete fixtures used by witnesses and counterexamples -/

/-- Fixture: one user "u" (id 1) linked to book 1. -/
def c4db : DB :=
  { users := [⟨1, "u", none, none, 1⟩],
    books := [⟨1, none, "Dune", none, none, none, 1⟩],
    user_books := [⟨1, 1, "reading", 10, none, none, some 2, none, 0, 2, 5⟩],
    next_user_id := 2, next_book_id := 2 }

/-- Result of updating c4db with percent 50 and total_pages -5. -/
def c4db2 : DB :=
  match update_user_book_progress c4db "u" 1 (some 50) none (some (-5)) 99 with
  | .ok d => d
  | .error _ => emptyDB

/-- Fixture for Book Resolution: user "u" reads "Alpha" and "Beta" and has
finished "Dune Messiah". -/
def c2db : DB :=
  { users := [⟨1, "u", some "U", none, 1⟩],
    books := [⟨1, none, "Alpha", none, none, none, 1⟩,
              ⟨2, none, "Beta", none, none, none, 1⟩,
              ⟨3, none, "Dune Messiah", none, none, none, 1⟩],
    user_books := [⟨1, 1, "reading", 10, none, none, some 2, none, 0, 2, 10⟩,
                   ⟨1, 2, "reading", 20, none, none, some 3, none, 0, 3, 9⟩,
                   ⟨1, 3, "finished", 100, none, none, some 4, some 5, 100, 4, 8⟩],
    next_user_id := 2, next_book_id := 4 }

/-- The reading scope of c2db's user, as `list_user_books` returns it. -/
def c2reading : List LinkView :=
  match list_user_books c2db "u" (some "reading") 200 with
  | .ok l => l
  | .error _ => []

/-- Extract the store from an `add_book_to_user` result. -/
def okLinkDB (r : Except DBError (DB × Nat × Nat × Bool)) : DB :=
  match r with
  | .ok (d, _, _, _) => d
  | .error _ => emptyDB

/-- Extract the store from an update result. -/
def okStoreDB (r : Except DBError DB) : DB :=
  match r with
  | .ok d => d
  | .error _ => emptyDB

/-- Fixture for the timestamp claims: "Dune" finished at tick 10. -/
def c3db1 : DB :=
  okLinkDB (add_book_to_user emptyDB "u" "Dune" none "finished" 0 none none none none none 10)

/-- c3db1 after moving the book back to reading at tick 20. -/
def c3db2 : DB := okStoreDB (update_user_book_status c3db1 "u" 1 "reading" 20)

/-- c3db2 after re-adding the same book as finished at tick 30. -/
def c3db3 : DB :=
  okLinkDB (add_book_to_user c3db2 "u" "Dune" none "finished" 0 none none none none none 30)

/-- C9 invariant: every stored progress percent lies in [0, 100]. -/
def pct_in_range (db : DB) : Prop :=
  ∀ r ∈ db.user_books, 0 ≤ r.progress_pct ∧ r.progress_pct ≤ 100

instance (db : DB) : Decidable (pct_in_range db) :=
  inferInstanceAs (Decidable (∀ r ∈ db.user_books, 0 ≤ r.progress_pct ∧ r.progress_pct ≤ 100))

/-- c4db after an update supplying the out-of-range percent 250. -/
def c9db2 : DB := okStoreDB (update_user_book_progress c4db "u" 1 (some 250) none none 7)

/-- c4db after an update to percent 60 (last milestone still 0). -/
def c1db : DB := okStoreDB (update_user_book_progress c4db "u" 1 (some 60) none none 6)

/-- The joined link row of c1db. -/
def c1link : LinkView :=
  match get_user_book_link c1db "u" 1 with
  | some l => l
  | none => ⟨0, "", 0, none, none, none, none, 0, 0, "", none, none⟩

/-! ## Helper lemmas -/

@[simp] theorem coalesce_some {α : Type} (a : α) (b : Option α) : coalesce (some a) b = some a := rfl

@[simp] theorem coalesce_none {α : Type} (b : Option α) : coalesce none b = b := rfl

theorem find?_map_update {α : Type} (p : α → Bool) (f : α → α)
    (hf : ∀ r, p r = true → p (f r) = true) :
    ∀ l : List α, (l.map (fun r => if p r then f r else r)).find? p = (l.find? p).map f
  | [] => rfl
  | a :: t => by
    by_cases h : p a = true
    · rw [List.map_cons, if_pos h, List.find?_cons_of_pos _ (hf a h),
        List.find?_cons_of_pos _ h]
      rfl
    · have h' : p a = false := by simpa using h
      rw [List.map_cons, if_neg (by simp [h']), List.find?_cons_of_neg _ (by simp [h']),
        List.find?_cons_of_neg _ (by simp [h']), find?_map_update p f hf t]

theorem find?_append_of_none {α : Type} (p : α → Bool) :
    ∀ l1 l2 : List α, l1.find? p = none → (l1 ++ l2).find? p = l2.find? p
  | [], _, _ => rfl
  | a :: t, l2, h => by
    have h' : p a = false := by
      by_contra hc
      rw [List.find?_cons_of_pos _ (by simpa using hc)] at h
      exact Option.noConfusion h
    rw [List.find?_cons_of_neg _ (by simp [h'])] at h
    rw [List.cons_append, List.find?_cons_of_neg _ (by simp [h'])]
    exact find?_append_of_none p t l2 h

theorem self_le_foldl_max : ∀ (cs : List Int) (c : Int), c ≤ cs.foldl max c
  | [], _ => le_refl _
  | a :: t, c => le_trans (le_max_left c a) (self_le_foldl_max t (max c a))

theorem mem_le_foldl_max : ∀ (cs : List Int) (c m : Int), m ∈ cs → m ≤ cs.foldl max c
  | a :: t, c, m, h => by
    rcases List.mem_cons.mp h with rfl | h'
    · exact le_trans (le_max_right c m) (self_le_foldl_max t (max c m))
    · exact mem_le_foldl_max t (max c a) m h'

theorem foldl_max_mem : ∀ (cs : List Int) (c : Int), cs.foldl max c = c ∨ cs.foldl max c ∈ cs
  | [], _ => Or.inl rfl
  | a :: t, c => by
    rcases foldl_max_mem t (max c a) with h | h
    · rcases max_choice c a with hm | hm
      · exact Or.inl (by rw [List.foldl_cons, h, hm])
      · exact Or.inr (by rw [List.foldl_cons, h, hm]; exact List.mem_cons_self a t)
    · exact Or.inr (List.mem_cons_of_mem a h)

theorem clamp01_bounds (p : Int) : 0 ≤ max 0 (min 100 p) ∧ max 0 (min 100 p) ≤ 100 :=
  ⟨le_max_left 0 _, max_le (by norm_num) (min_le_left 100 p)⟩

theorem upsert_user_user_books (db : DB) (uid : String) (dn : Option String) (now : Nat) :
    (upsert_user db uid dn now).1.user_books = db.user_books := by
  unfold upsert_user
  cases get_user db uid <;> rfl

theorem upsert_user_keeps_books (db : DB) (uid : String) (dn : Option String) (now : Nat) :
    (upsert_user db uid dn now).1.books = db.books := by
  unfold upsert_user
  cases get_user db uid <;> rfl

theorem add_or_get_book_user_books (db : DB) (title : String) (author : Option String)
    (gid isbn : Option String) (yr : Option Int) (now : Nat) :
    (add_or_get_book db title author gid isbn yr now).1.user_books = db.user_books := by
  unfold add_or_get_book
  repeat' split
  all_goals rfl

theorem find?_updateWhere_relinkRow (k b : Nat) (st : String) (pct : Int)
    (cp tp : Option Int) (sa fa : Option Nat) (now : Nat) (l : List UserBookRow) :
    (updateWhere (linkKey k b) (relinkRow st pct cp tp sa fa now) l).find? (linkKey k b) =
      (l.find? (linkKey k b)).map (relinkRow st pct cp tp sa fa now) :=
  find?_map_update (linkKey k b) (relinkRow st pct cp tp sa fa now) (fun _ h0 => h0) l

theorem find?_updateWhere_progressRow (k b : Nat) (pct2 cp tp : Option Int)
    (now : Nat) (l : List UserBookRow) :
    (updateWhere (linkKey k b) (progressRow pct2 cp tp now) l).find? (linkKey k b) =
      (l.find? (linkKey k b)).map (progressRow pct2 cp tp now) :=
  find?_map_update (linkKey k b) (progressRow pct2 cp tp now) (fun _ h0 => h0) l

theorem find?_updateWhere_statusRow (k b : Nat) (st : String) (sa fa : Option Nat)
    (now : Nat) (l : List UserBookRow) :
    (updateWhere (linkKey k b) (statusRow st sa fa now) l).find? (linkKey k b) =
      (l.find? (linkKey k b)).map (statusRow st sa fa now) :=
  find?_map_update (linkKey k b) (statusRow st sa fa now) (fun _ h0 => h0) l

theorem find?_updateWhere_milestoneRow (k b : Nat) (m : Int) (now : Nat)
    (l : List UserBookRow) :
    (updateWhere (linkKey k b) (milestoneRow m now) l).find? (linkKey k b) =
      (l.find? (linkKey k b)).map (milestoneRow m now) :=
  find?_map_update (linkKey k b) (milestoneRow m now) (fun _ h0 => h0) l

/-! ## C8: percent derived from a "current/total" token -/

/-- C8: for `total > 0` the parsed payload carries exactly
`round(current/total*100)` clamped to [0,100] (Python `round`, i.e. round
half to even, over exact rationals), and for `total <= 0` the parse fails
with InvalidInput. -/
theorem fraction_percent_correct (current total : Int) :
    (0 < total →
      parse_progress_fraction current total =
        .ok { progress_pct :=
                some (max 0 (min 100 (pyRound ((current : ℚ) / (total : ℚ) * 100)))),
              current_page := some current, total_pages := some total }) ∧
    (total ≤ 0 → parse_progress_fraction current total = .error .invalidInput) := by
  constructor
  · intro h
    unfold parse_progress_fraction
    rw [if_neg (by omega)]
  · intro h
    unfold parse_progress_fraction
    rw [if_pos h]

/-- Witness for C8 at the spec's own example: `(120, 500)` yields 24. -/
theorem fraction_percent_correct_witness :
    (0 : Int) < 500 ∧
    parse_progress_fraction 120 500 =
      .ok { progress_pct := some 24, current_page := some 120, total_pages := some 500 } := by
  refine ⟨by decide, ?_⟩
  have h := (fraction_percent_correct 120 500).1 (by decide)
  rw [h]
  congr 1
  norm_num [pyRound]

/-! ## C6: upsert_user display-name semantics -/

/-- C6 counterexample: a supplied *empty* display name overwrites the
stored one — SQL COALESCE only treats NULL, not emptiness, so the claim's
"existing value preserved on empty input" is false. -/
theorem upsert_user_empty_name_overwrites :
    (get_user (upsert_user (upsert_user emptyDB "u" (some "Alice") 1).1 "u" (some "") 2).1
        "u").map (fun u => u.display_name) = some (some "") := by
  decide

/-- C6 amended: `upsert_user` inserts a new row when the external identity
is absent; on conflict the stored display name is preserved exactly when
the supplied value is absent (NULL), and is overwritten by any supplied
string, empty included. -/
theorem upsert_user_coalesce (db : DB) (uid : String) (dn : Option String) (now : Nat) :
    (get_user db uid = none →
      upsert_user db uid dn now =
        ({ db with users := db.users ++ [⟨db.next_user_id, uid, dn, none, now⟩],
                   next_user_id := db.next_user_id + 1 }, db.next_user_id) ∧
      get_user (upsert_user db uid dn now).1 uid =
        some ⟨db.next_user_id, uid, dn, none, now⟩) ∧
    (∀ u, get_user db uid = some u →
      (upsert_user db uid dn now).2 = u.id ∧
      ∃ u2, get_user (upsert_user db uid dn now).1 uid = some u2 ∧
        u2.display_name = (match dn with | none => u.display_name | some s => some s)) := by
  constructor
  · intro h
    constructor
    · unfold upsert_user
      rw [h]
    · unfold upsert_user
      rw [h]
      show List.find? (fun x => x.discord_user_id == uid)
          (db.users ++ [(⟨db.next_user_id, uid, dn, none, now⟩ : UserRow)]) =
        some ⟨db.next_user_id, uid, dn, none, now⟩
      rw [find?_append_of_none _ _ _ h, List.find?_cons_of_pos _ (by simp)]
  · intro u h
    have hfind : db.users.find? (fun x => x.discord_user_id == uid) = some u := h
    constructor
    · unfold upsert_user
      rw [h]
    · unfold upsert_user
      rw [h]
      refine ⟨{ u with display_name := coalesce dn u.display_name }, ?_, ?_⟩
      · show (db.users.map _).find? _ = _
        rw [find?_map_update (fun x => x.discord_user_id == uid)
          (fun x => { x with display_name := coalesce dn x.display_name })
          (fun r hr => hr) db.users, hfind]
        rfl
      · cases dn <;> rfl

/-- Witness for C6: fresh insert of "u", then a conflicting upsert with an
absent display name preserves "Alice". -/
theorem upsert_user_coalesce_witness :
    get_user (upsert_user emptyDB "u" (some "Alice") 1).1 "u" =
      some ⟨1, "u", some "Alice", none, 1⟩ ∧
    ∃ u2, get_user (upsert_user (upsert_user emptyDB "u" (some "Alice") 1).1 "u" none 2).1
        "u" = some u2 ∧
      u2.display_name = some "Alice" := by
  constructor
  · exact ((upsert_user_coalesce emptyDB "u" (some "Alice") 1).1 rfl).2
  · obtain ⟨-, u2, h1, h2⟩ :=
      ((upsert_user_coalesce (upsert_user emptyDB "u" (some "Alice") 1).1 "u" none 2).2
        ⟨1, "u", some "Alice", none, 1⟩ (by decide))
    exact ⟨u2, h1, h2⟩

/-! ## C7: behavior on an external identity with no user row -/

/-- C7 counterexample: `set_last_milestone` for an unknown user does not
fail with UnknownUser — the Python function silently returns, leaving the
store untouched and raising nothing. -/
theorem set_last_milestone_unknown_user_silent :
    get_user emptyDB "ghost" = none ∧
    set_last_milestone emptyDB "ghost" 1 50 9 = emptyDB := by
  exact ⟨rfl, rfl⟩

/-- C7 amended: with no user row, the read paths return the empty /
exists-false shape, `update_progress` and `update_status` (with a valid
status) fail with UnknownUser, and `set_last_milestone` is a silent no-op
rather than an error. -/
theorem unknown_user_behavior (db : DB) (uid : String) (h : get_user db uid = none) :
    (∀ status limit, list_user_books db uid status limit = .ok []) ∧
    (get_user_profile_summary db uid).user_exists = false ∧
    (∀ bid pct cp tp now,
      update_user_book_progress db uid bid pct cp tp now = .error .unknownUser) ∧
    (∀ bid status now, ALLOWED_STATUSES.contains (pyStripLower status) = true →
      update_user_book_status db uid bid status now = .error .unknownUser) ∧
    (∀ bid m now, set_last_milestone db uid bid m now = db) := by
  refine ⟨?_, ?_, ?_, ?_, ?_⟩
  · intro status limit
    unfold list_user_books
    rw [h]
  · unfold get_user_profile_summary
    rw [h]
  · intro bid pct cp tp now
    unfold update_user_book_progress
    rw [h]
  · intro bid status now hc
    unfold update_user_book_status
    rw [if_pos hc, h]
  · intro bid m now
    unfold set_last_milestone
    rw [h]

/-- Witness for C7 on the empty store. -/
theorem unknown_user_behavior_witness :
    list_user_books emptyDB "ghost" (some "bogus") 10 = .ok [] ∧
    (get_user_profile_summary emptyDB "ghost").user_exists = false ∧
    update_user_book_progress emptyDB "ghost" 1 (some 50) none none 9 =
      .error .unknownUser ∧
    update_user_book_status emptyDB "ghost" 1 "reading" 9 = .error .unknownUser := by
  obtain ⟨h1, h2, h3, h4, _⟩ := unknown_user_behavior emptyDB "ghost" rfl
  exact ⟨h1 (some "bogus") 10, h2, h3 1 (some 50) none none 9, h4 1 "reading" 9 (by decide)⟩

/-! ## C4 and C5: update_progress error handling -/

/-- C4 counterexample: supplying `total_pages = -5` together with a percent
does not fail with InvalidInput — the update succeeds and the raw negative
total is stored, because the code only checks `total_pages <= 0` inside the
page-to-percent derivation branch. -/
theorem update_progress_nonpositive_total_accepted :
    update_user_book_progress c4db "u" 1 (some 50) none (some (-5)) 99 = .ok c4db2 ∧
    (get_user_book_link c4db2 "u" 1).map (fun l => l.total_pages) = some (some (-5)) := by
  exact ⟨rfl, rfl⟩

/-- C4 amended: with an existing user and link row, `update_progress`
fails with InvalidInput exactly when the percent is absent, a current page
is supplied and the supplied `total_pages` is negative (Python truthiness
skips the check when `total_pages` is 0 or when no derivation happens);
every other supplied total — 0 and negative values included — is accepted
and stored raw. -/
theorem update_progress_invalid_input_iff (db : DB) (uid : String) (bid : Nat)
    (pct cp tp : Option Int) (now : Nat) (u : UserRow) (r : UserBookRow)
    (hu : get_user db uid = some u)
    (hr : db.user_books.find? (linkKey u.id bid) = some r) :
    (update_user_book_progress db uid bid pct cp tp now = .error .invalidInput ↔
      (pct = none ∧ cp ≠ none ∧ ∃ t, tp = some t ∧ t < 0)) ∧
    (∀ t, tp = some t → ¬(pct = none ∧ cp ≠ none ∧ t < 0) →
      Except.map (fun db2 =>
          (db2.user_books.find? (linkKey u.id bid)).map (fun x => x.total_pages))
        (update_user_book_progress db uid bid pct cp tp now) = .ok (some (some t))) := by
  have hwrite : ∀ pct2 : Option Int,
      ((updateWhere (linkKey u.id bid) (progressRow pct2 cp tp now)
          db.user_books).find? (linkKey u.id bid)).map
        (fun x => x.total_pages) = some (coalesce tp r.total_pages) := by
    intro pct2
    rw [find?_updateWhere_progressRow, hr]
    rfl
  unfold update_user_book_progress
  rw [hu]
  constructor
  · constructor
    · intro herr
      rcases pct with _ | p <;> rcases cp with _ | c <;> rcases tp with _ | t
      · simp [hr] at herr
      · simp [hr] at herr
      · simp [hr] at herr
      · dsimp only at herr
        split_ifs at herr with h1 h2
        · simp [hr] at herr
        · refine ⟨rfl, by simp, t, rfl, ?_⟩
          have ht : ¬ t = 0 := by simpa using h1
          omega
        · simp [hr] at herr
      · simp [hr] at herr
      · simp [hr] at herr
      · simp [hr] at herr
      · simp [hr] at herr
    · rintro ⟨hpct, hcp, t, htp, hlt⟩
      subst hpct
      subst htp
      rcases cp with _ | c
      · exact absurd rfl hcp
      · dsimp only
        rw [if_neg (by simp only [beq_iff_eq]; omega), if_pos (by omega)]
  · intro t htp hcond
    subst htp
    rcases pct with _ | p <;> rcases cp with _ | c
    · dsimp only
      rw [hr]
      exact congrArg Except.ok (hwrite none)
    · rcases lt_trichotomy t 0 with hneg | rfl | hpos
      · exact absurd ⟨rfl, by simp, hneg⟩ hcond
      · dsimp only
        rw [if_pos (by simp), hr]
        exact congrArg Except.ok (hwrite none)
      · dsimp only
        rw [if_neg (by simp only [beq_iff_eq]; omega), if_neg (by omega), hr]
        exact congrArg Except.ok (hwrite _)
    · dsimp only
      rw [hr]
      exact congrArg Except.ok (hwrite _)
    · dsimp only
      rw [hr]
      exact congrArg Except.ok (hwrite _)

/-- Witness for C4 (amended) on the fixture: `total_pages = 0` supplied
together with a current page is accepted and 0 is stored raw. -/
theorem update_progress_invalid_input_iff_witness :
    ¬ ((none : Option Int) = none ∧ (some (2:Int)) ≠ none ∧ (0:Int) < 0) ∧
    Except.map (fun db2 =>
        (db2.user_books.find? (linkKey (⟨1, "u", none, none, 1⟩ : UserRow).id 1)).map
          (fun x => x.total_pages))
      (update_user_book_progress c4db "u" 1 none (some 2) (some 0) 99) =
      .ok (some (some 0)) := by
  refine ⟨by simp, ?_⟩
  exact (update_progress_invalid_input_iff c4db "u" 1 none (some 2) (some 0) 99
    ⟨1, "u", none, none, 1⟩ ⟨1, 1, "reading", 10, none, none, some 2, none, 0, 2, 5⟩
    rfl rfl).2 0 rfl (by simp)

/-- C5 counterexample: with an existing user and an *unlinked* book, a call
whose arguments hit the derivation guard fails with InvalidInput, not
NotLinked — the derivation check precedes the link-existence check. -/
theorem update_progress_unlinked_invalid_input :
    get_user c4db "u" = some ⟨1, "u", none, none, 1⟩ ∧
    c4db.user_books.find? (linkKey 1 7) = none ∧
    update_user_book_progress c4db "u" 7 none (some 1) (some (-1)) 99 =
      .error .invalidInput ∧
    update_user_book_progress c4db "u" 7 none (some 1) (some (-1)) 99 ≠
      .error .notLinked := by
  refine ⟨rfl, rfl, rfl, ?_⟩
  intro hcontra
  exact DBError.noConfusion (Except.error.inj
    ((rfl : update_user_book_progress c4db "u" 7 none (some 1) (some (-1)) 99 =
      .error .invalidInput).symm.trans hcontra))

/-- C5 amended: with an existing user but no link row, `update_progress`
always fails and the store is untouched (the raise precedes every write);
the error is NotLinked unless the arguments independently trigger the
InvalidInput derivation check (percent absent, current page supplied,
negative total), which the code runs first. -/
theorem update_progress_unlinked_fails (db : DB) (uid : String) (bid : Nat)
    (pct cp tp : Option Int) (now : Nat) (u : UserRow)
    (hu : get_user db uid = some u)
    (hnl : db.user_books.find? (linkKey u.id bid) = none) :
    update_user_book_progress db uid bid pct cp tp now =
      .error (if pct.isNone && cp.isSome && tp.elim false (fun t => decide (t < 0))
              then .invalidInput else .notLinked) := by
  unfold update_user_book_progress
  rw [hu]
  rcases pct with _ | p <;> rcases cp with _ | c <;> rcases tp with _ | t <;>
    simp only [hnl, Option.elim, Option.isNone, Option.isSome, Bool.and_false,
      Bool.false_and, Bool.and_true, Bool.true_and, if_false]
  · rfl
  · rfl
  · rfl
  · by_cases ht0 : t == 0
    · rw [if_pos ht0]
      simp only [hnl]
      have h0 : t = 0 := by simpa using ht0
      rw [if_neg (by simp [h0])]
    · rw [if_neg ht0]
      by_cases hle : t ≤ 0
      · rw [if_pos hle]
        have : t < 0 := by
          have : ¬ t = 0 := by simpa using ht0
          omega
        rw [if_pos (by simpa using this)]
      · rw [if_neg hle]
        simp only [hnl]
        rw [if_neg (by simp; omega)]
  · rfl
  · rfl
  · rfl
  · rfl

/-- Witness for C5 (amended): unlinked pair with benign arguments fails
with NotLinked. -/
theorem update_progress_unlinked_fails_witness :
    update_user_book_progress c4db "u" 7 (some 40) none none 99 =
      .error (if (some (40:Int)).isNone && (none : Option Int).isSome &&
                  (none : Option Int).elim false (fun t => decide (t < 0))
              then DBError.invalidInput else DBError.notLinked) :=
  update_progress_unlinked_fails c4db "u" 7 (some 40) none none 99
    ⟨1, "u", none, none, 1⟩ rfl rfl

/-! ## C2: book resolution scope -/

/-- C2 counterexample: with two reading books neither of which matches
"dune" and a finished book whose title does, the code yields "not found"
(`none`) while the spec's broadened search would find book 3 — the
broadening step does not exist in `resolve_reading_book_id`. -/
theorem resolve_scope_not_broadened :
    resolve_reading_book_id c2db "u" (some "dune") = none ∧
    resolve_reading_book_id_specside c2db "u" (some "dune") = some 3 := by
  exact ⟨rfl, rfl⟩

/-- C2 amended: for a non-empty, non-numeric token and a reading scope of
more than one link, resolution is exact case-insensitive title match then
case-insensitive substring match, both *within the scope only*, first hit
in scope order winning; when both fail the result is "not found" — the
search is never broadened to the user's full book list. -/
theorem resolve_nonnumeric_in_scope_only (db : DB) (uid : String) (w : String)
    (reading : List LinkView)
    (hlist : list_user_books db uid (some "reading") 200 = .ok reading)
    (hlen : 2 ≤ reading.length)
    (hw : w ≠ "")
    (hnd : isDigits (pyStrip w) = false) :
    resolve_reading_book_id db uid (some w) =
      (Option.orElse
        (reading.find? (fun b => strLower (pyStrip b.title) == strLower (pyStrip w)))
        (fun _ => reading.find? (fun b =>
          strContainsSub (strLower (pyStrip w)) (strLower b.title)))).map
        (fun b => b.book_id) := by
  obtain ⟨x, y, l, rfl⟩ : ∃ x y l, reading = x :: y :: l := by
    rcases reading with _ | ⟨x, _ | ⟨y, l⟩⟩
    · simp at hlen
    · simp at hlen
    · exact ⟨x, y, l, rfl⟩
  unfold resolve_reading_book_id
  rw [hlist]
  dsimp only
  rw [if_pos (by simpa [truthyStr] using hw), if_neg (by simp [hnd])]
  cases hex : (x :: y :: l).find?
      (fun b => strLower (pyStrip b.title) == strLower (pyStrip w)) with
  | some b => simp [hex, Option.orElse]
  | none =>
    cases hsub : (x :: y :: l).find?
        (fun b => strContainsSub (strLower (pyStrip w)) (strLower b.title)) with
    | some b => simp [hex, hsub, Option.orElse]
    | none => simp [hex, hsub, Option.orElse]

/-- Witness for C2 (amended) on the fixture with token "beta": the
substring pass inside the scope finds book 2. -/
theorem resolve_nonnumeric_in_scope_only_witness :
    list_user_books c2db "u" (some "reading") 200 = .ok c2reading ∧
    2 ≤ c2reading.length ∧
    resolve_reading_book_id c2db "u" (some "beta") =
      (Option.orElse
        (c2reading.find? (fun b => strLower (pyStrip b.title) == strLower (pyStrip "beta")))
        (fun _ => c2reading.find? (fun b =>
          strContainsSub (strLower (pyStrip "beta")) (strLower b.title)))).map
        (fun b => b.book_id) := by
  refine ⟨rfl, by decide, ?_⟩
  exact resolve_nonnumeric_in_scope_only c2db "u" "beta" c2reading rfl (by decide)
    (by decide) (by decide)

/-! ## C3: first-write-wins timestamps -/

/-- C3 counterexample: "Dune" is finished at tick 10, moved back to reading
at tick 20 (original finished_at preserved by update_status), then re-added
as finished at tick 30 via add_book_to_user — and the stored finished_at
becomes 30, not the original 10, because the re-link UPDATE coalesces with
the *new* timestamp first. -/
theorem finished_at_overwritten_on_relink :
    (get_user_book_link c3db1 "u" 1).map (fun l => (l.status, l.finished_at)) =
      some ("finished", some 10) ∧
    (get_user_book_link c3db2 "u" 1).map (fun l => (l.status, l.finished_at)) =
      some ("reading", some 10) ∧
    add_book_to_user c3db2 "u" "Dune" none "finished" 0 none none none none none 30 =
      .ok (c3db3, 1, 1, false) ∧
    (get_user_book_link c3db3 "u" 1).map (fun l => (l.status, l.finished_at)) =
      some ("finished", some 30) := by
  exact ⟨rfl, rfl, rfl, rfl⟩

/-- C3 amended: `update_user_book_status` itself is first-write-wins: it
stamps `now` into started_at/finished_at only when entering
reading/finished with the timestamp still unset, and never clears or
overwrites a set one; re-linking through `add_book_to_user`, however, is
not covered by this rule (see the counterexample). -/
theorem update_status_first_write_wins (db : DB) (uid : String) (bid : Nat)
    (status : String) (now : Nat) (u : UserRow) (r : UserBookRow) (db2 : DB)
    (hu : get_user db uid = some u)
    (hr : db.user_books.find? (linkKey u.id bid) = some r)
    (hok : update_user_book_status db uid bid status now = .ok db2) :
    (db2.user_books.find? (linkKey u.id bid)).map
        (fun x => (x.status, x.started_at, x.finished_at)) =
      some (pyStripLower status,
        (if pyStripLower status == "reading" then some (r.started_at.getD now)
         else r.started_at),
        (if pyStripLower status == "finished" then some (r.finished_at.getD now)
         else r.finished_at)) := by
  by_cases hc : ALLOWED_STATUSES.contains (pyStripLower status) = true
  case neg =>
    unfold update_user_book_status at hok
    rw [if_neg hc] at hok
    exact Except.noConfusion hok
  unfold update_user_book_status at hok
  rw [if_pos hc, hu] at hok
  dsimp only at hok
  rw [hr] at hok
  dsimp only at hok
  cases hok
  rw [find?_updateWhere_statusRow, hr]
  unfold statusRow
  by_cases hsr : pyStripLower status == "reading" <;>
    by_cases hsf : pyStripLower status == "finished" <;>
      rcases hsa : r.started_at with _ | sa <;> rcases hfa : r.finished_at with _ | fa <;>
        simp_all [coalesce]

/-- Witness for C3 (amended): moving c3db1's finished book (finished at
tick 10) to reading at tick 20 keeps finished_at = 10 and stamps
started_at = 20. -/
theorem update_status_first_write_wins_witness :
    (c3db2.user_books.find?
        (linkKey (⟨1, "u", none, none, 10⟩ : UserRow).id 1)).map
        (fun x => (x.status, x.started_at, x.finished_at)) =
      some (pyStripLower "reading",
        (if pyStripLower "reading" == "reading"
         then some ((none : Option Nat).getD 20) else none),
        (if pyStripLower "reading" == "finished"
         then some ((some 10 : Option Nat).getD 20) else some 10)) := by
  exact update_status_first_write_wins c3db1 "u" 1 "reading" 20
    ⟨1, "u", none, none, 10⟩ ⟨1, 1, "finished", 0, none, none, none, some 10, 0, 10, 10⟩
    c3db2 rfl rfl rfl

/-! ## C10: re-linking keeps milestone history and creation time -/

/-- C10: when `add_book_to_user` reports `created = false`, the link row
existed, and the in-place UPDATE is exactly `relinkRow` — which writes
status, progress, page fields, timestamps and updated_at, and leaves
last_milestone and created_at as they were. -/
theorem relink_preserves_milestone_and_created (db : DB) (uid title : String)
    (author : Option String) (status : String) (p : Int) (cp tp : Option Int)
    (gid isbn : Option String) (yr : Option Int) (now : Nat)
    (db2 : DB) (uN bN : Nat)
    (hok : add_book_to_user db uid title author status p cp tp gid isbn yr now =
      .ok (db2, uN, bN, false)) :
    ∃ r, db.user_books.find? (linkKey uN bN) = some r ∧
      db2.user_books.find? (linkKey uN bN) =
        some (relinkRow (pyStripLower status) (max 0 (min 100 p)) cp tp
          (if pyStripLower status == "reading" then some now else none)
          (if pyStripLower status == "finished" then some now else none) now r) ∧
      (db2.user_books.find? (linkKey uN bN)).map
          (fun x => (x.last_milestone, x.created_at)) =
        some (r.last_milestone, r.created_at) := by
  by_cases hc : ALLOWED_STATUSES.contains (pyStripLower status) = true
  case neg =>
    unfold add_book_to_user at hok
    rw [if_neg hc] at hok
    exact Except.noConfusion hok
  unfold add_book_to_user at hok
  rw [if_pos hc] at hok
  dsimp only at hok
  rw [add_or_get_book_user_books, upsert_user_user_books] at hok
  split at hok
  next r2 heq =>
    cases hok
    refine ⟨r2, heq, ?_, ?_⟩
    · rw [find?_updateWhere_relinkRow, heq]
      rfl
    · rw [find?_updateWhere_relinkRow, heq]
      rfl
  next heq => simp at hok

/-- Witness for C10: re-adding "Dune" (already linked in c3db2) keeps the
row's last_milestone and created_at. -/
theorem relink_preserves_milestone_and_created_witness :
    ∃ r, c3db2.user_books.find? (linkKey 1 1) = some r ∧
      c3db3.user_books.find? (linkKey 1 1) =
        some (relinkRow (pyStripLower "finished") (max 0 (min 100 0)) none none
          (if pyStripLower "finished" == "reading" then some 30 else none)
          (if pyStripLower "finished" == "finished" then some 30 else none) 30 r) ∧
      (c3db3.user_books.find? (linkKey 1 1)).map
          (fun x => (x.last_milestone, x.created_at)) =
        some (r.last_milestone, r.created_at) :=
  relink_preserves_milestone_and_created c3db2 "u" "Dune" none "finished" 0 none none
    none none none 30 c3db3 1 1 rfl

/-! ## C9: progress percent invariant -/

/-- C9: starting from any store whose percents are all in [0, 100], both
`add_book_to_user` (insert and in-place update) and `update_progress`
preserve the invariant — supplied percents are clamped, never stored raw;
and a valid status means `add_book_to_user` never rejects, whatever the
supplied percent. -/
theorem progress_pct_invariant (db : DB) (hdb : pct_in_range db) :
    (∀ uid title author status p cp tp gid isbn yr now db2 uN bN c,
      add_book_to_user db uid title author status p cp tp gid isbn yr now =
        .ok (db2, uN, bN, c) → pct_in_range db2) ∧
    (∀ uid bid pct cp tp now db2,
      update_user_book_progress db uid bid pct cp tp now = .ok db2 → pct_in_range db2) ∧
    (∀ uid title author status p cp tp gid isbn yr now,
      ALLOWED_STATUSES.contains (pyStripLower status) = true →
      ∃ out, add_book_to_user db uid title author status p cp tp gid isbn yr now =
        .ok out) := by
  refine ⟨?_, ?_, ?_⟩
  · intro uid title author status p cp tp gid isbn yr now db2 uN bN c hok
    by_cases hc : ALLOWED_STATUSES.contains (pyStripLower status) = true
    case neg =>
      unfold add_book_to_user at hok
      rw [if_neg hc] at hok
      exact Except.noConfusion hok
    unfold add_book_to_user at hok
    rw [if_pos hc] at hok
    dsimp only at hok
    rw [add_or_get_book_user_books, upsert_user_user_books] at hok
    split at hok
    next r2 heq =>
      cases hok
      intro r' hr'
      unfold updateWhere at hr'
      rcases List.mem_map.mp hr' with ⟨r0, hr0, rfl⟩
      by_cases hk : linkKey (upsert_user db uid none now).2
          (add_or_get_book (upsert_user db uid none now).1 title author gid isbn yr
            now).2 r0 = true
      · rw [if_pos hk]
        exact clamp01_bounds p
      · rw [if_neg hk]
        exact hdb r0 hr0
    next heq =>
      cases hok
      intro r' hr'
      rcases List.mem_append.mp hr' with hmem | hmem
      · exact hdb r' hmem
      · rcases List.mem_singleton.mp hmem with rfl
        exact clamp01_bounds p
  · intro uid bid pct cp tp now db2 hok
    unfold update_user_book_progress at hok
    split at hok
    next => exact Except.noConfusion hok
    next u hu =>
      dsimp only at hok
      split at hok
      next => exact Except.noConfusion hok
      next pct1 hstep =>
        split at hok
        next => exact Except.noConfusion hok
        next r2 heq =>
          cases hok
          intro r' hr'
          unfold updateWhere at hr'
          rcases List.mem_map.mp hr' with ⟨r0, hr0, rfl⟩
          by_cases hk : linkKey u.id bid r0 = true
          · rw [if_pos hk]
            unfold progressRow
            rcases pct1 with _ | p1
            · exact hdb r0 hr0
            · exact clamp01_bounds p1
          · rw [if_neg hk]
            exact hdb r0 hr0
  · intro uid title author status p cp tp gid isbn yr now hc
    unfold add_book_to_user
    rw [if_pos hc]
    dsimp only
    split
    · exact ⟨_, rfl⟩
    · exact ⟨_, rfl⟩

/-- Witness for C9: updating c4db with the out-of-range percent 250
succeeds and the store still satisfies the invariant. -/
theorem progress_pct_invariant_witness :
    pct_in_range c4db ∧ pct_in_range c9db2 :=
  ⟨by decide, (progress_pct_invariant c4db (by decide)).2.1 "u" 1 (some 250) none none 7
    c9db2 rfl⟩

/-! ## C1: milestone detection -/

theorem get_user_book_link_set_last_milestone (db : DB) (uid : String) (bid : Nat)
    (m : Int) (now : Nat) (u : UserRow) (r : UserBookRow)
    (hg : get_user db uid = some u)
    (hf : db.user_books.find? (linkKey u.id bid) = some r) :
    get_user_book_link (set_last_milestone db uid bid m now) uid bid =
      joinBook db (milestoneRow m now r) := by
  unfold set_last_milestone
  rw [hg]
  unfold get_user_book_link
  have hg2 : get_user { db with user_books := (updateWhere (linkKey u.id bid)
      (milestoneRow m now) db.user_books) } uid = some u := hg
  rw [hg2]
  dsimp only
  rw [find?_updateWhere_milestoneRow, hf]
  rfl

/-- C1: the crossed set is exactly the milestones m with last < m <= pct;
an empty crossed set means no announcement and an unchanged store; a
non-empty one announces the maximum crossed threshold and stores it as the
link's new last milestone. -/
theorem milestone_detection (db : DB) (uid : String) (bid now : Nat) (link : LinkView)
    (h : get_user_book_link db uid bid = some link) :
    (∀ m : Int, m ∈ crossed_milestones link.last_milestone link.progress_pct ↔
      (m ∈ MILESTONES ∧ link.last_milestone < m ∧ m ≤ link.progress_pct)) ∧
    (crossed_milestones link.last_milestone link.progress_pct = [] →
      announce_milestone_if_crossed db uid bid now = (db, none)) ∧
    (crossed_milestones link.last_milestone link.progress_pct ≠ [] →
      ∃ M, M ∈ crossed_milestones link.last_milestone link.progress_pct ∧
        (∀ m ∈ crossed_milestones link.last_milestone link.progress_pct, m ≤ M) ∧
        (announce_milestone_if_crossed db uid bid now).2 = some M ∧
        (get_user_book_link (announce_milestone_if_crossed db uid bid now).1 uid bid).map
          (fun l => l.last_milestone) = some M) := by
  obtain ⟨u, hg, r, hf, hj⟩ : ∃ u, get_user db uid = some u ∧ ∃ r,
      db.user_books.find? (linkKey u.id bid) = some r ∧ joinBook db r = some link := by
    unfold get_user_book_link at h
    cases hg : get_user db uid with
    | none => rw [hg] at h; exact Option.noConfusion h
    | some u =>
      rw [hg] at h
      dsimp only at h
      cases hf : db.user_books.find? (linkKey u.id bid) with
      | none => rw [hf] at h; exact Option.noConfusion h
      | some r =>
        rw [hf] at h
        exact ⟨u, rfl, r, hf, h⟩
  refine ⟨?_, ?_, ?_⟩
  · intro m
    simp [crossed_milestones, List.mem_filter]
  · intro hcr
    unfold announce_milestone_if_crossed
    rw [h]
    dsimp only
    rw [hcr]
  · intro hcr
    rcases hc : crossed_milestones link.last_milestone link.progress_pct with _ | ⟨c, cs⟩
    case nil => exact absurd hc hcr
    refine ⟨cs.foldl max c, ?_, ?_, ?_, ?_⟩
    · rcases foldl_max_mem cs c with hm | hm
      · rw [hm]; exact List.mem_cons_self c cs
      · exact List.mem_cons_of_mem c hm
    · intro m hm
      rcases List.mem_cons.mp hm with rfl | hm'
      · exact self_le_foldl_max cs m
      · exact mem_le_foldl_max cs c m hm'
    · unfold announce_milestone_if_crossed
      rw [h]
      dsimp only
      rw [hc]
    · unfold announce_milestone_if_crossed
      rw [h]
      dsimp only
      rw [hc]
      dsimp only
      rw [get_user_book_link_set_last_milestone db uid bid (cs.foldl max c) now u r hg hf]
      unfold joinBook at hj ⊢
      cases hb : db.books.find? (fun b => b.id == r.book_id) with
      | none => rw [hb] at hj; exact Option.noConfusion hj
      | some b =>
        have hb2 : db.books.find?
            (fun b0 => b0.id == (milestoneRow (cs.foldl max c) now r).book_id) = some b := hb
        rw [hb2]
        rfl

/-- Witness for C1: the spec's two examples, plus the stored new last
milestone 50 after announcing on c1db (percent 60, last 0). -/
theorem milestone_detection_witness :
    crossed_milestones 0 60 = [25, 50] ∧
    crossed_milestones 50 50 = [] ∧
    ((50 : Int) ∈ crossed_milestones c1link.last_milestone c1link.progress_pct ↔
      ((50 : Int) ∈ MILESTONES ∧ c1link.last_milestone < 50 ∧
        50 ≤ c1link.progress_pct)) ∧
    ∃ M, M ∈ crossed_milestones c1link.last_milestone c1link.progress_pct ∧
      (∀ m ∈ crossed_milestones c1link.last_milestone c1link.progress_pct, m ≤ M) ∧
      (announce_milestone_if_crossed c1db "u" 1 99).2 = some M ∧
      (get_user_book_link (announce_milestone_if_crossed c1db "u" 1 99).1 "u" 1).map
        (fun l => l.last_milestone) = some M := by
  refine ⟨by decide, by decide, ?_, ?_⟩
  · exact (milestone_detection c1db "u" 1 99 c1link rfl).1 50
  · exact (milestone_detection c1db "u" 1 99 c1link rfl).2.2 (by decide)

end BookBot
